import Mathlib

/-!
Verification development for the code-checkout license-validation engine.

The definitions below are a shallow embedding of the TypeScript sources:
  * `src/private/license-validator.ts`  — the VSCode-backed validator
  * `src/private/license-manager.ts`    — the storage-agnostic LicenseManager
  * `src/private/node-storage.ts`       — the file-backed Storage implementation
  * `src/public/tag.ts`                 — the command gate (tagCommand)
  * `src/types/license.ts`              — the shared data model

Modelling conventions:
  * ISO-8601 date strings are modelled by their epoch-millisecond value
    (a `Nat`); `new Date(s).getTime()` and comparisons between `Date`
    objects become comparisons of these numbers.  `Date.now()` / `new
    Date()` become an explicit `now : Nat` argument.
  * JSON text is modelled by its parse tree (the `Json` inductive);
    `JSON.stringify` / `JSON.parse` are exact inverses on the values the
    code produces, so serialization is modelled at the value level.
  * The network is modelled by an explicit outcome argument: either the
    fetch promise rejects (unreachable / json-parse failure) or an HTTP
    response with a status code and an optional parsed body arrives.
  * `async` sequencing becomes ordinary sequencing; storage side effects
    become explicit state passing.
-/

namespace CodeCheckout

/-! ## Data model of `license-validator.ts` -/

/-- Embeds the `LicenseData` interface of `license-validator.ts`: the four
fields persisted by the VSCode validator.  Dates are epoch milliseconds. -/
structure LicenseData where
  key : String
  expiresOn : Nat
  lastValidated : Nat
  machineId : String
deriving DecidableEq, Repr

/-- Embeds the `ValidationResult` interface of `license-validator.ts`.
Optional fields absent from a return statement are `none`. -/
structure ValidationResult where
  isValid : Bool
  message : Option String := none
  expiresOn : Option Nat := none
  offlineGracePeriodUsed : Option Bool := none
deriving DecidableEq, Repr

/-- Embeds the VSCode-side persistent state touched by the validator: the
`license-key` configuration value (default `""`) and the three secrets
(`license-expires`, `license-last-validated`, `license-machine-id`). -/
structure VsCodeState where
  licenseKeyConfig : String
  licenseExpires : Option Nat
  licenseLastValidated : Option Nat
  licenseMachineId : Option String
deriving DecidableEq, Repr

/-- Embeds `storeLicenseData` of `license-validator.ts`: writes the key to
configuration and the other three fields to secret storage. -/
def storeLicenseData (d : LicenseData) : VsCodeState :=
  { licenseKeyConfig := d.key
    licenseExpires := some d.expiresOn
    licenseLastValidated := some d.lastValidated
    licenseMachineId := some d.machineId }

/-- Embeds `clearLicenseData` of `license-validator.ts`: resets the key
configuration to `""` and deletes the three secrets. -/
def clearLicenseData : VsCodeState :=
  { licenseKeyConfig := ""
    licenseExpires := none
    licenseLastValidated := none
    licenseMachineId := none }

/-- Embeds `getLicenseData` of `license-validator.ts`: returns `null` when
the key is falsy (empty) or any secret is missing/falsy, otherwise the
assembled record. -/
def getLicenseData (st : VsCodeState) : Option LicenseData :=
  match st.licenseExpires, st.licenseLastValidated, st.licenseMachineId with
  | some e, some l, some m =>
      if st.licenseKeyConfig = "" ∨ m = "" then none
      else some { key := st.licenseKeyConfig, expiresOn := e,
                  lastValidated := l, machineId := m }
  | _, _, _ => none

/-- Embeds `getStoredLicense` of `license-validator.ts`: reads the
`license-key` configuration value, default `""`. -/
def getStoredLicense (st : VsCodeState) : String :=
  st.licenseKeyConfig

/-! ## The wire protocol and network model -/

/-- Embeds the parsed JSON body of a `/validate` response (`ServerResponse`
on the wire: `isValid`, `message?`, `expiresOn`, `isRevoked`,
`gracePeriodMs`). -/
structure WireResponseBody where
  isValid : Bool
  message : Option String := none
  expiresOn : Nat
  isRevoked : Bool := false
  gracePeriodMs : Nat := 0
deriving DecidableEq, Repr

/-- Outcome of the single `fetch` performed by `validateLicense`:
either the promise rejects (network unreachable), or a response with a
status code arrives whose body parses to `some body` or fails to parse
(`none`, making `response.json()` throw). -/
inductive NetOutcome where
  | unreachable
  | response (status : Nat) (body : Option WireResponseBody)
deriving DecidableEq, Repr

/-- Embeds `Response.ok` of the fetch API: status in the range 200–299. -/
def responseOk (status : Nat) : Bool :=
  200 ≤ status ∧ status ≤ 299

/-- Milliseconds in `gracePeriodDays` days: `gracePeriodDays * 24 * 60 *
60 * 1000`, as computed in `license-validator.ts`. -/
def gracePeriodMsOfDays (gracePeriodDays : Nat) : Nat :=
  gracePeriodDays * 24 * 60 * 60 * 1000

/-! ## `validateLicense` of `license-validator.ts` -/

/-- Embeds the offline-fallback branch of `validateLicense`
(`license-validator.ts`, the `catch (networkError)` handler): no stored
record denies; a key mismatch denies; an expired record
(`expirationDate <= new Date()`) denies; beyond the grace window denies;
otherwise the license is valid offline within the grace period. -/
def offlineValidate (st : VsCodeState) (licenseKey : String) (now : Nat)
    (gracePeriodDays : Nat) : ValidationResult :=
  match getLicenseData st with
  | none =>
      { isValid := false
        message := some
          "License validation requires internet connection for first-time activation" }
  | some existingLicense =>
      if existingLicense.key ≠ licenseKey then
        { isValid := false
          message := some "License key mismatch during offline validation" }
      else if existingLicense.expiresOn ≤ now then
        { isValid := false
          message := some
            "License has expired. Online validation required for renewal." }
      else if gracePeriodMsOfDays gracePeriodDays
                < now - existingLicense.lastValidated then
        { isValid := false
          message := some
            "Offline grace period has expired. Please connect to the internet to validate your license." }
      else
        { isValid := true
          message := some "License validated offline using grace period"
          expiresOn := some existingLicense.expiresOn
          offlineGracePeriodUsed := some true }

/-- Embeds `validateLicense` of `license-validator.ts`.  A 403 clears the
stored data and throws, every other non-ok status or unparsable body
throws; each throw is caught by the offline handler, which then sees the
(possibly cleared) state.  A parsed body stores refreshed data when
`isValid` and clears it otherwise.  `machineId` stands for the
`generateMachineId()` fingerprint.  Returns the result together with the
post-call state. -/
def validateLicense (st : VsCodeState) (licenseKey : String) (now : Nat)
    (machineId : String) (net : NetOutcome) (gracePeriodDays : Nat) :
    ValidationResult × VsCodeState :=
  match net with
  | .unreachable =>
      (offlineValidate st licenseKey now gracePeriodDays, st)
  | .response status body =>
      if status = 403 then
        (offlineValidate clearLicenseData licenseKey now gracePeriodDays,
         clearLicenseData)
      else if ¬ responseOk status then
        (offlineValidate st licenseKey now gracePeriodDays, st)
      else
        match body with
        | none =>
            (offlineValidate st licenseKey now gracePeriodDays, st)
        | some result =>
            if result.isValid then
              ({ isValid := result.isValid
                 message := result.message
                 expiresOn := some result.expiresOn },
               storeLicenseData
                 { key := licenseKey, expiresOn := result.expiresOn,
                   lastValidated := now, machineId := machineId })
            else
              ({ isValid := result.isValid
                 message := result.message
                 expiresOn := some result.expiresOn },
               clearLicenseData)

/-- Embeds `isLicenseExpired` of `license-validator.ts`: `true` when no
record is stored or `new Date(data.expiresOn) <= new Date()`. -/
def isLicenseExpired (st : VsCodeState) (now : Nat) : Bool :=
  match getLicenseData st with
  | none => true
  | some d => d.expiresOn ≤ now

/-- Embeds `needsOnlineValidation` of `license-validator.ts`: `true` when
no record is stored or the time since `lastValidated` exceeds the grace
period. -/
def needsOnlineValidation (st : VsCodeState) (now : Nat)
    (gracePeriodDays : Nat) : Bool :=
  match getLicenseData st with
  | none => true
  | some d => gracePeriodMsOfDays gracePeriodDays < now - d.lastValidated

/-! ## Data model of `types/license.ts` -/

/-- Embeds the `LicenseStatus` union type of `types/license.ts`:
`"active" | "expired" | "revoked" | "grace"`. -/
inductive LicenseStatus where
  | active
  | expired
  | revoked
  | grace
deriving DecidableEq, Repr

/-- String value of a `LicenseStatus` member, as written in the union. -/
def LicenseStatus.toStr : LicenseStatus → String
  | .active => "active"
  | .expired => "expired"
  | .revoked => "revoked"
  | .grace => "grace"

/-- Partial inverse of `LicenseStatus.toStr`. -/
def licenseStatusOfString (s : String) : Option LicenseStatus :=
  if s = "active" then some .active
  else if s = "expired" then some .expired
  else if s = "revoked" then some .revoked
  else if s = "grace" then some .grace
  else none

/-- Embeds the `LocalLicenseData` interface of `types/license.ts`.  Dates
are epoch milliseconds; the optional `lastOfflineUse` is `none` when the
field is absent. -/
structure LocalLicenseData where
  key : String
  lastValidated : Nat
  expiresAt : Nat
  status : LicenseStatus
  gracePeriodMs : Nat
  lastOfflineUse : Option Nat := none
deriving DecidableEq, Repr

/-- Embeds the `LicenseValidationResponse` interface of
`types/license.ts`: the server body the LicenseManager consumes. -/
structure LicenseValidationResponse where
  isValid : Bool
  message : Option String := none
  expiresAt : Nat
  isRevoked : Bool
  gracePeriodMs : Nat
deriving DecidableEq, Repr

/-- Embeds the `LicenseValidationOptions` interface of `types/license.ts`.
`allowOffline` is tested for truthiness, so the absent case is modelled
as `false`; `gracePeriodMs` keeps its `Option` because `??` distinguishes
absent from `0`; `strict` is declared but never read by the code. -/
structure LicenseValidationOptions where
  allowOffline : Bool := false
  strict : Bool := false
  gracePeriodMs : Option Nat := none
deriving DecidableEq, Repr

/-- Embeds the `LicenseValidationResult` interface of `types/license.ts`. -/
structure LicenseValidationResult where
  isValid : Bool
  status : LicenseStatus
  message : String
  wasOffline : Bool
deriving DecidableEq, Repr

/-! ## JSON values and the key-value storage model -/

/-- Parse tree of a JSON document, the value-level model of the strings
`JSON.stringify` produces and `JSON.parse` consumes. -/
inductive Json where
  | str (s : String)
  | num (n : Nat)
  | bool (b : Bool)
  | null
  | obj (fields : List (String × Json))

/-- Looks a field up in a JSON object body (property access on the parsed
object). -/
def lookupField : List (String × Json) → String → Option Json
  | [], _ => none
  | (k, v) :: rest, key => if k = key then some v else lookupField rest key

/-- Reads a JSON value as a string, `none` on any other shape. -/
def asStr : Option Json → Option String
  | some (.str s) => some s
  | _ => none

/-- Reads a JSON value as a number, `none` on any other shape. -/
def asNum : Option Json → Option Nat
  | some (.num n) => some n
  | _ => none

/-- Value-level `JSON.stringify` of a `LocalLicenseData`: the object the
LicenseManager serializes into storage.  An absent `lastOfflineUse` is
omitted, as `JSON.stringify` omits `undefined` properties. -/
def LocalLicenseData.toJson (d : LocalLicenseData) : Json :=
  .obj ([("key", .str d.key),
         ("lastValidated", .num d.lastValidated),
         ("expiresAt", .num d.expiresAt),
         ("status", .str d.status.toStr),
         ("gracePeriodMs", .num d.gracePeriodMs)]
        ++ (match d.lastOfflineUse with
            | some t => [("lastOfflineUse", .num t)]
            | none => []))

/-- Value-level `JSON.parse` of a stored `LocalLicenseData` document:
reads each property off the parsed object. -/
def localLicenseDataFromJson (j : Json) : Option LocalLicenseData :=
  match j with
  | .obj fs =>
      match asStr (lookupField fs "key"),
            asNum (lookupField fs "lastValidated"),
            asNum (lookupField fs "expiresAt"),
            (asStr (lookupField fs "status")).bind licenseStatusOfString,
            asNum (lookupField fs "gracePeriodMs") with
      | some k, some lv, some ea, some st, some gp =>
          some { key := k, lastValidated := lv, expiresAt := ea,
                 status := st, gracePeriodMs := gp,
                 lastOfflineUse := asNum (lookupField fs "lastOfflineUse") }
      | _, _, _, _, _ => none
  | _ => none

/-- Abstract key-value store holding JSON documents: the `Storage`
interface of `license-manager.ts` with values modelled at the JSON-tree
level. -/
def StorageMap := String → Option Json

/-- Embeds `Storage.getItem`. -/
def StorageMap.getItem (m : StorageMap) (key : String) : Option Json :=
  m key

/-- Embeds `Storage.setItem`. -/
def StorageMap.setItem (m : StorageMap) (key : String) (value : Json) :
    StorageMap :=
  fun k => if k = key then some value else m k

/-- Embeds `Storage.removeItem`. -/
def StorageMap.removeItem (m : StorageMap) (key : String) : StorageMap :=
  fun k => if k = key then none else m k

/-! ## `node-storage.ts`: the file-backed Storage implementation -/

/-- The file system as a partial map from paths to file contents. -/
def FileSystem := String → Option String

namespace NodeStorage

/-- Embeds `NodeStorage.getFilePath`: `path.join(storagePath, key +
".json")`. -/
def getFilePath (storagePath key : String) : String :=
  storagePath ++ "/" ++ key ++ ".json"

/-- Embeds `NodeStorage.getItem`: reads the file, `none` on `ENOENT`. -/
def getItem (fs : FileSystem) (storagePath key : String) : Option String :=
  fs (getFilePath storagePath key)

/-- Embeds `NodeStorage.setItem`: writes the value at the key's path. -/
def setItem (fs : FileSystem) (storagePath key value : String) :
    FileSystem :=
  fun p => if p = getFilePath storagePath key then some value else fs p

/-- Embeds `NodeStorage.removeItem`: unlinks the file, ignoring `ENOENT`. -/
def removeItem (fs : FileSystem) (storagePath key : String) : FileSystem :=
  fun p => if p = getFilePath storagePath key then none else fs p

end NodeStorage

/-! ## `license-manager.ts`: the LicenseManager -/

namespace LicenseManager

/-- Default grace period of 7 days in milliseconds
(`DEFAULT_GRACE_PERIOD_MS`). -/
def DEFAULT_GRACE_PERIOD_MS : Nat := 7 * 24 * 60 * 60 * 1000

/-- Outcome of `validateWithServer`: any network failure, non-ok status
or unparsable body throws, collapsed into `failure`; a parsed body is
`success`. -/
inductive MgrNet where
  | failure
  | success (resp : LicenseValidationResponse)
deriving DecidableEq, Repr

/-- Embeds `LicenseManager.storeLicenseData`: `setItem(storageKey,
JSON.stringify(data))`. -/
def storeLicenseData (m : StorageMap) (storageKey : String)
    (d : LocalLicenseData) : StorageMap :=
  m.setItem storageKey d.toJson

/-- Embeds `LicenseManager.getStoredLicenseData`: `getItem` then
`JSON.parse`, `null` when nothing is stored. -/
def getStoredLicenseData (m : StorageMap) (storageKey : String) :
    Option LocalLicenseData :=
  match m.getItem storageKey with
  | none => none
  | some j => localLicenseDataFromJson j

/-- JavaScript `a || b` on an optional string: the default wins when the
value is absent or the empty string. -/
def msgOrDefault (msg : Option String) (dflt : String) : String :=
  match msg with
  | none => dflt
  | some s => if s = "" then dflt else s

/-- Embeds `LicenseManager.validateOffline`: expired when `now >
expiresAt`; valid with status `grace` while `now - lastValidated <=
gracePeriodMs` (the options' grace period overriding the stored one via
`??`); otherwise denied with status `expired`. -/
def validateOffline (storedData : LocalLicenseData)
    (options : LicenseValidationOptions) (now : Nat) :
    LicenseValidationResult :=
  let gracePeriodMs := options.gracePeriodMs.getD storedData.gracePeriodMs
  if storedData.expiresAt < now then
    { isValid := false, status := .expired,
      message := "License has expired", wasOffline := true }
  else if now - storedData.lastValidated ≤ gracePeriodMs then
    { isValid := true, status := .grace,
      message := "License validated offline within grace period",
      wasOffline := true }
  else
    { isValid := false, status := .expired,
      message := "License requires online validation - grace period expired",
      wasOffline := true }

/-- Embeds `LicenseManager.validateLicense`.  On server success:
`isRevoked` is handled first (clear the record, return a revoked
denial); otherwise the refreshed record is stored (grace period
defaulted via `||`) and the server's verdict returned.  On any
`validateWithServer` throw: the offline path runs only when
`allowOffline` is set and a stored record with a matching key exists,
otherwise the error is rethrown (`Except.error`). -/
def validateLicense (m : StorageMap) (storageKey licenseKey : String)
    (now : Nat) (net : MgrNet) (options : LicenseValidationOptions) :
    Except Unit LicenseValidationResult × StorageMap :=
  match net with
  | .success serverResponse =>
      if serverResponse.isRevoked then
        (.ok { isValid := false, status := .revoked,
               message := "License has been revoked", wasOffline := false },
         m.removeItem storageKey)
      else
        let licenseData : LocalLicenseData :=
          { key := licenseKey
            lastValidated := now
            expiresAt := serverResponse.expiresAt
            status := if serverResponse.isValid then .active else .expired
            gracePeriodMs :=
              if serverResponse.gracePeriodMs = 0 then DEFAULT_GRACE_PERIOD_MS
              else serverResponse.gracePeriodMs }
        (.ok { isValid := serverResponse.isValid
               status := if serverResponse.isValid then .active else .expired
               message :=
                 msgOrDefault serverResponse.message
                   "License validated successfully"
               wasOffline := false },
         storeLicenseData m storageKey licenseData)
  | .failure =>
      if options.allowOffline then
        match getStoredLicenseData m storageKey with
        | some storedData =>
            if storedData.key = licenseKey then
              (.ok (validateOffline storedData options now), m)
            else (.error (), m)
        | none => (.error (), m)
      else (.error (), m)

end LicenseManager

/-! ## `tag.ts`: the command gate -/

/-- Embeds the `type` field of `TagOptions` in `tag.ts`:
`"free" | "paid"`. -/
inductive TagType where
  | free
  | paid
deriving DecidableEq, Repr

/-- Embeds the `TagOptions` interface of `tag.ts`. -/
structure TagOptions where
  type : TagType
  activationMessage : Option String := none
  activationCtaTitle : Option String := none
  reactivationMessage : Option String := none
  reactivationCtaTitle : Option String := none
deriving DecidableEq, Repr

/-- The value `tagCommand` returns: either the original function object,
returned unchanged on the free path, or the async gating closure built on
the paid path (capturing the options and the extension name). -/
inductive TaggedCommand (α : Type) where
  | original (fn : α)
  | gated (options : TagOptions) (extensionName : String) (fn : α)

/-- Embeds `tagCommand` of `tag.ts`: free commands are returned unchanged
before any other work; otherwise the extension id is split on `"."`
(throwing on fewer than two components, its second component becoming the
extension name) and the gating closure is returned. -/
def tagCommand {α : Type} (extensionId : String) (options : TagOptions)
    (fn : α) : Except String (TaggedCommand α) :=
  if options.type = .free then
    .ok (.original fn)
  else
    let comps := extensionId.splitOn "."
    if h : comps.length < 2 then .error "Invalid extension ID"
    else .ok (.gated options (comps.get ⟨1, by omega⟩) fn)

/-- Observable side effects of running a tagged command: reads of the
credential store and license-engine calls that reach the network. -/
inductive Effect where
  | storageRead
  | engineCheck
deriving DecidableEq, Repr

/-- Embeds running a command returned by `tagCommand` on arguments `x`
(`tag.ts`, the async closure).  The original function runs directly with
no storage or engine access.  The gated closure reads the stored license
key (prompting and returning `undefined` when absent), then: expired
records block on `validateLicense`; within-grace records fire a
background `validateLicense` and proceed; beyond-grace records block on
`validateLicense`.  The returned triple is (result, post state, effect
trace). -/
def runTagged {α ρ : Type} (st : VsCodeState) (now : Nat)
    (machineId : String) (net : NetOutcome)
    (t : TaggedCommand (α → ρ)) (x : α) :
    Option ρ × VsCodeState × List Effect :=
  match t with
  | .original fn => (some (fn x), st, [])
  | .gated _options _extensionName fn =>
      let licenseKey := getStoredLicense st
      if licenseKey = "" then
        (none, st, [.storageRead])
      else if isLicenseExpired st now then
        let (vr, st1) := validateLicense st licenseKey now machineId net 3
        if vr.isValid then (some (fn x), st1, [.storageRead, .engineCheck])
        else (none, st1, [.storageRead, .engineCheck])
      else if needsOnlineValidation st now 3 then
        let (vr, st1) := validateLicense st licenseKey now machineId net 3
        if vr.isValid then (some (fn x), st1, [.storageRead, .engineCheck])
        else (none, st1, [.storageRead, .engineCheck])
      else
        let (_, st1) := validateLicense st licenseKey now machineId net 3
        (some (fn x), st1, [.storageRead, .engineCheck])

/-! ## Helper lemmas -/

/-- Round trip of the value-level serialization of a `LocalLicenseData`. -/
theorem localLicenseDataFromJson_toJson (d : LocalLicenseData) :
    localLicenseDataFromJson d.toJson = some d := by
  cases d with
  | mk key lastValidated expiresAt status gracePeriodMs lastOfflineUse =>
      cases status <;> cases lastOfflineUse <;> rfl

/-! ## Claims -/

/-- Claim C7 (confirmed): wrapping an operation classified as free returns
the operation unchanged, and running that original operation invokes it
directly with no storage read, no engine call and no state change. -/
theorem free_classification_identity {α ρ : Type} (extensionId : String)
    (options : TagOptions) (fn : α → ρ) (st : VsCodeState) (now : Nat)
    (machineId : String) (net : NetOutcome) (x : α)
    (hfree : options.type = TagType.free) :
    tagCommand extensionId options fn = Except.ok (TaggedCommand.original fn)
    ∧ runTagged st now machineId net (TaggedCommand.original fn) x
        = (some (fn x), st, ([] : List Effect)) := by
  refine ⟨?_, rfl⟩
  simp [tagCommand, hfree]

/-- Witness for C7: a concrete free-tagged operation on `Nat.succ`. -/
theorem free_classification_identity_witness :
    tagCommand "pub.ext" { type := TagType.free } Nat.succ
        = Except.ok (TaggedCommand.original Nat.succ)
    ∧ runTagged clearLicenseData 0 "M" NetOutcome.unreachable
        (TaggedCommand.original Nat.succ) 41
        = (some 42, clearLicenseData, ([] : List Effect)) :=
  free_classification_identity "pub.ext" { type := TagType.free } Nat.succ
    clearLicenseData 0 "M" NetOutcome.unreachable 41 rfl

/-- Claim C8 (confirmed): a record written by the LicenseManager's put is
read back with every field identical, and the file-backed NodeStorage
returns exactly the value just written for the same key. -/
theorem put_get_roundtrip (m : StorageMap) (storageKey : String)
    (d : LocalLicenseData) (fs : FileSystem)
    (storagePath key value : String) :
    LicenseManager.getStoredLicenseData
        (LicenseManager.storeLicenseData m storageKey d) storageKey = some d
    ∧ NodeStorage.getItem (NodeStorage.setItem fs storagePath key value)
        storagePath key = some value := by
  constructor
  · simp [LicenseManager.getStoredLicenseData, LicenseManager.storeLicenseData,
      StorageMap.getItem, StorageMap.setItem,
      localLicenseDataFromJson_toJson]
  · simp [NodeStorage.getItem, NodeStorage.setItem]

/-- Claim C4 (confirmed): whatever the other server fields say, a response
with `isRevoked = true` yields the revoked denial and removes the stored
record, so a subsequent store read returns absent. -/
theorem revoked_response_clears_store (m : StorageMap)
    (storageKey licenseKey : String) (now : Nat)
    (options : LicenseValidationOptions) (iv : Bool) (msg : Option String)
    (ea gp : Nat) :
    LicenseManager.validateLicense m storageKey licenseKey now
        (LicenseManager.MgrNet.success
          { isValid := iv, message := msg, expiresAt := ea,
            isRevoked := true, gracePeriodMs := gp }) options
      = (Except.ok { isValid := false, status := LicenseStatus.revoked,
                     message := "License has been revoked",
                     wasOffline := false },
         m.removeItem storageKey)
    ∧ (m.removeItem storageKey).getItem storageKey = none
    ∧ LicenseManager.getStoredLicenseData (m.removeItem storageKey)
        storageKey = none := by
  refine ⟨rfl, ?_, ?_⟩
  · simp [StorageMap.getItem, StorageMap.removeItem]
  · simp [LicenseManager.getStoredLicenseData, StorageMap.getItem,
      StorageMap.removeItem]

/-- Counterexample to claim C5: a 401 response is not special-cased; with
a stored record inside the grace window, the check after a 401 returns
`isValid = true` from stored data and leaves the record in place, so the
credential is neither rejected outright nor the fallback skipped. -/
theorem unauthorized_401_uses_offline_fallback :
    validateLicense
        { licenseKeyConfig := "K", licenseExpires := some 1000000000000000,
          licenseLastValidated := some 500, licenseMachineId := some "M" }
        "K" 600 "M" (NetOutcome.response 401 none) 3
      = ({ isValid := true,
           message := some "License validated offline using grace period",
           expiresOn := some 1000000000000000,
           offlineGracePeriodUsed := some true },
         { licenseKeyConfig := "K", licenseExpires := some 1000000000000000,
           licenseLastValidated := some 500, licenseMachineId := some "M" }) := by
  decide

/-- Claim C5 (corrected): only a 403 response rejects the credential
outright — the stored record is cleared before the thrown error reaches
the offline handler, which therefore finds no record and denies; stored
data can never yield `isValid = true` after a 403.  (A 401 is not
special-cased and falls through to the ordinary offline fallback.) -/
theorem forbidden_403_clears_and_denies (st : VsCodeState)
    (licenseKey : String) (now : Nat) (machineId : String)
    (body : Option WireResponseBody) (gracePeriodDays : Nat) :
    validateLicense st licenseKey now machineId
        (NetOutcome.response 403 body) gracePeriodDays
      = ({ isValid := false,
           message := some
             "License validation requires internet connection for first-time activation" },
         clearLicenseData)
    ∧ getLicenseData clearLicenseData = none := by
  exact ⟨rfl, rfl⟩

/-- Counterexample to claim C6: no outcome carries a status
`"unactivated"` — the `LicenseStatus` type has only the four members
`active`, `expired`, `revoked`, `grace`; the LicenseManager rethrows the
network error instead of returning an outcome when nothing is stored; and
the validator's denial in that scenario has `isValid = false` with a
message but no status field at all. -/
theorem unactivated_status_absent :
    ([LicenseStatus.active, LicenseStatus.expired, LicenseStatus.revoked,
      LicenseStatus.grace].all (fun s => s.toStr ≠ "unactivated")) = true
    ∧ (LicenseManager.validateLicense (fun _ => none) "license_data" "K" 0
        LicenseManager.MgrNet.failure { allowOffline := true }).1
      = Except.error ()
    ∧ (validateLicense clearLicenseData "K" 0 "M"
        NetOutcome.unreachable 3).1
      = { isValid := false,
          message := some
            "License validation requires internet connection for first-time activation" } := by
  exact ⟨by decide, rfl, rfl⟩

/-- Claim C6 (corrected): with no stored record and the network
unreachable, the check denies with `isValid = false` and the first-time
activation message, leaving the state untouched; the result carries no
`"unactivated"` status because no such status exists in the code. -/
theorem no_record_offline_denies (st : VsCodeState) (licenseKey : String)
    (now : Nat) (machineId : String) (gracePeriodDays : Nat)
    (hnone : getLicenseData st = none) :
    validateLicense st licenseKey now machineId NetOutcome.unreachable
        gracePeriodDays
      = ({ isValid := false,
           message := some
             "License validation requires internet connection for first-time activation" },
         st) := by
  simp [validateLicense, offlineValidate, hnone]

/-- Witness for C6: the cleared state holds no record and the check
denies with the first-time activation message. -/
theorem no_record_offline_denies_witness :
    validateLicense clearLicenseData "K" 77 "M" NetOutcome.unreachable 3
      = ({ isValid := false,
           message := some
             "License validation requires internet connection for first-time activation" },
         clearLicenseData) :=
  no_record_offline_denies clearLicenseData "K" 77 "M" 3 rfl

/-- Claim C10 (confirmed): when the key under validation differs from the
stored record's key and the network is unreachable, the offline fallback
denies with the key-mismatch message and the stored state is returned
unchanged. -/
theorem key_mismatch_offline_denies (st : VsCodeState) (lic : LicenseData)
    (licenseKey : String) (now : Nat) (machineId : String)
    (gracePeriodDays : Nat) (hget : getLicenseData st = some lic)
    (hne : lic.key ≠ licenseKey) :
    validateLicense st licenseKey now machineId NetOutcome.unreachable
        gracePeriodDays
      = ({ isValid := false,
           message := some "License key mismatch during offline validation" },
         st) := by
  simp [validateLicense, offlineValidate, hget, hne]

/-- Witness for C10: stored key `"K"`, checked key `"OTHER"`. -/
theorem key_mismatch_offline_denies_witness :
    validateLicense
        { licenseKeyConfig := "K", licenseExpires := some 1000,
          licenseLastValidated := some 500, licenseMachineId := some "M" }
        "OTHER" 600 "M" NetOutcome.unreachable 3
      = ({ isValid := false,
           message := some "License key mismatch during offline validation" },
         { licenseKeyConfig := "K", licenseExpires := some 1000,
           licenseLastValidated := some 500, licenseMachineId := some "M" }) :=
  key_mismatch_offline_denies _ _ "OTHER" 600 "M" 3 rfl (by decide)

/-- Claim C9 (confirmed): a successful (2xx, parseable) response with
`isValid = false` and no revocation still clears the stored record — the
post-call state is the cleared state, on which a read returns absent —
and the returned outcome is the server's denial. -/
theorem invalid_server_response_clears_store (st : VsCodeState)
    (licenseKey : String) (now : Nat) (machineId : String) (status : Nat)
    (body : WireResponseBody) (gracePeriodDays : Nat)
    (hlo : 200 ≤ status) (hhi : status ≤ 299)
    (hinv : body.isValid = false) (_hrev : body.isRevoked = false) :
    validateLicense st licenseKey now machineId
        (NetOutcome.response status (some body)) gracePeriodDays
      = ({ isValid := false, message := body.message,
           expiresOn := some body.expiresOn },
         clearLicenseData)
    ∧ getLicenseData clearLicenseData = none := by
  have h403 : status ≠ 403 := by omega
  refine ⟨?_, rfl⟩
  simp [validateLicense, h403, responseOk, hlo, hhi, hinv]

/-- Witness for C9: a 200 response reporting `isValid = false` clears a
previously stored record. -/
theorem invalid_server_response_clears_store_witness :
    (200 ≤ 200 ∧ 200 ≤ 299)
    ∧ validateLicense
        { licenseKeyConfig := "K", licenseExpires := some 1000,
          licenseLastValidated := some 500, licenseMachineId := some "M" }
        "K" 600 "M"
        (NetOutcome.response 200
          (some { isValid := false, message := some "denied",
                  expiresOn := 9000, isRevoked := false,
                  gracePeriodMs := 0 })) 3
      = ({ isValid := false, message := some "denied",
           expiresOn := some 9000 },
         clearLicenseData)
    ∧ getLicenseData clearLicenseData = none :=
  ⟨⟨by decide, by decide⟩,
   invalid_server_response_clears_store _ "K" 600 "M" 200
     { isValid := false, message := some "denied", expiresOn := 9000,
       isRevoked := false, gracePeriodMs := 0 } 3
     (by decide) (by decide) rfl rfl⟩

/-- Counterexample to claim C1: at `now = expiresOn` the claim's
hypotheses hold (`now ≤ expiresOn`, time since last validation within the
grace period, matching key, network unreachable), yet the check denies:
the code treats `expirationDate <= new Date()` as expired. -/
theorem validator_denies_at_exact_expiry_within_grace :
    (1000 ≤ 1000 ∧ 1000 - 1000 ≤ gracePeriodMsOfDays 3)
    ∧ (validateLicense
        { licenseKeyConfig := "K", licenseExpires := some 1000,
          licenseLastValidated := some 1000, licenseMachineId := some "M" }
        "K" 1000 "M" NetOutcome.unreachable 3).1
      = { isValid := false,
          message := some
            "License has expired. Online validation required for renewal." } := by
  decide

/-- Claim C1 (corrected): for every stored record whose expiry is
strictly in the future (`now < expiresOn`; the validator rejects the
`now = expiresOn` boundary as expired) and whose time since last
successful validation is within the grace period, a check performed while
the network is unreachable returns `isValid = true` with the offline
grace indication; likewise the LicenseManager's offline path (which
accepts `now ≤ expiresAt`) returns the valid `grace` outcome with
`wasOffline = true`. -/
theorem offline_grace_within_window_validates (st : VsCodeState)
    (lic : LicenseData) (now : Nat) (machineId : String)
    (gracePeriodDays : Nat) (d : LocalLicenseData)
    (options : LicenseValidationOptions)
    (hget : getLicenseData st = some lic) (hexp : now < lic.expiresOn)
    (hgrace : now - lic.lastValidated ≤ gracePeriodMsOfDays gracePeriodDays)
    (hdexp : now ≤ d.expiresAt)
    (hdgrace : now - d.lastValidated
        ≤ options.gracePeriodMs.getD d.gracePeriodMs) :
    (validateLicense st lic.key now machineId NetOutcome.unreachable
        gracePeriodDays).1
      = { isValid := true,
          message := some "License validated offline using grace period",
          expiresOn := some lic.expiresOn,
          offlineGracePeriodUsed := some true }
    ∧ LicenseManager.validateOffline d options now
      = { isValid := true, status := LicenseStatus.grace,
          message := "License validated offline within grace period",
          wasOffline := true } := by
  constructor
  · have h1 : ¬ lic.expiresOn ≤ now := by omega
    have h2 : ¬ gracePeriodMsOfDays gracePeriodDays
        < now - lic.lastValidated := by omega
    simp [validateLicense, offlineValidate, hget, h1, h2]
  · have h3 : ¬ d.expiresAt < now := by omega
    simp [LicenseManager.validateOffline, h3, hdgrace]

/-- Witness for C1 (amended): a record one day old inside a seven-day
grace window, together with a LicenseManager record read at the exact
expiry boundary. -/
theorem offline_grace_within_window_validates_witness :
    (validateLicense
        { licenseKeyConfig := "K", licenseExpires := some 1000000,
          licenseLastValidated := some 500, licenseMachineId := some "M" }
        "K" 600 "M" NetOutcome.unreachable 3).1
      = { isValid := true,
          message := some "License validated offline using grace period",
          expiresOn := some 1000000,
          offlineGracePeriodUsed := some true }
    ∧ LicenseManager.validateOffline
        { key := "K", lastValidated := 550, expiresAt := 600,
          status := LicenseStatus.active, gracePeriodMs := 100 } {} 600
      = { isValid := true, status := LicenseStatus.grace,
          message := "License validated offline within grace period",
          wasOffline := true } :=
  offline_grace_within_window_validates _
    { key := "K", expiresOn := 1000000, lastValidated := 500,
      machineId := "M" }
    600 "M" 3
    { key := "K", lastValidated := 550, expiresAt := 600,
      status := LicenseStatus.active, gracePeriodMs := 100 } {}
    rfl (by decide) (by decide) (by decide) (by decide)

/-- Claim C2 (confirmed): a stored record that is not expired but whose
time since last validation exceeds the grace period needs online
validation (`needsOnlineValidation = true`); when the network is
unreachable the check denies with the grace-expired message, and the
LicenseManager's offline path likewise denies with status `expired` —
offline validity is never fabricated beyond the grace window. -/
theorem beyond_grace_offline_denies (st : VsCodeState) (lic : LicenseData)
    (now : Nat) (machineId : String) (gracePeriodDays : Nat)
    (d : LocalLicenseData) (options : LicenseValidationOptions)
    (hget : getLicenseData st = some lic) (hexp : now < lic.expiresOn)
    (hgrace : gracePeriodMsOfDays gracePeriodDays
        < now - lic.lastValidated)
    (hdexp : now ≤ d.expiresAt)
    (hdgrace : options.gracePeriodMs.getD d.gracePeriodMs
        < now - d.lastValidated) :
    needsOnlineValidation st now gracePeriodDays = true
    ∧ (validateLicense st lic.key now machineId NetOutcome.unreachable
        gracePeriodDays).1
      = { isValid := false,
          message := some
            "Offline grace period has expired. Please connect to the internet to validate your license." }
    ∧ LicenseManager.validateOffline d options now
      = { isValid := false, status := LicenseStatus.expired,
          message :=
            "License requires online validation - grace period expired",
          wasOffline := true } := by
  refine ⟨?_, ?_, ?_⟩
  · simp [needsOnlineValidation, hget, hgrace]
  · have h1 : ¬ lic.expiresOn ≤ now := by omega
    simp [validateLicense, offlineValidate, hget, h1, hgrace]
  · have h3 : ¬ d.expiresAt < now := by omega
    have h4 : ¬ now - d.lastValidated
        ≤ options.gracePeriodMs.getD d.gracePeriodMs := by omega
    simp [LicenseManager.validateOffline, h3, h4]

/-- Witness for C2: Scenario C shaped input — last validated 8 days ago
with a 3-day (validator) resp. 7-day (manager) grace period, not expired,
network unreachable. -/
theorem beyond_grace_offline_denies_witness :
    needsOnlineValidation
        { licenseKeyConfig := "K",
          licenseExpires := some 10000000000000,
          licenseLastValidated := some 0, licenseMachineId := some "M" }
        691200000 3 = true
    ∧ (validateLicense
        { licenseKeyConfig := "K",
          licenseExpires := some 10000000000000,
          licenseLastValidated := some 0, licenseMachineId := some "M" }
        "K" 691200000 "M" NetOutcome.unreachable 3).1
      = { isValid := false,
          message := some
            "Offline grace period has expired. Please connect to the internet to validate your license." }
    ∧ LicenseManager.validateOffline
        { key := "K", lastValidated := 0, expiresAt := 10000000000000,
          status := LicenseStatus.active, gracePeriodMs := 604800000 } {}
        691200000
      = { isValid := false, status := LicenseStatus.expired,
          message :=
            "License requires online validation - grace period expired",
          wasOffline := true } :=
  beyond_grace_offline_denies _
    { key := "K", expiresOn := 10000000000000, lastValidated := 0,
      machineId := "M" }
    691200000 "M" 3
    { key := "K", lastValidated := 0, expiresAt := 10000000000000,
      status := LicenseStatus.active, gracePeriodMs := 604800000 } {}
    rfl (by decide) (by decide) (by decide) (by decide)

/-- Claim C3 (confirmed): a stored record with `now > expiresOn` is
reported expired (`isLicenseExpired = true`, forcing an online check);
when that check cannot reach the server the result is the expired denial
with `isValid = false` — in the validator and in the LicenseManager's
offline path (status `expired`) alike — even though the grace window
since the last validation has not elapsed. -/
theorem expired_record_never_trusted_offline (st : VsCodeState)
    (lic : LicenseData) (now : Nat) (machineId : String)
    (gracePeriodDays : Nat) (d : LocalLicenseData)
    (options : LicenseValidationOptions)
    (hget : getLicenseData st = some lic) (hexp : lic.expiresOn < now)
    (_hgrace : now - lic.lastValidated ≤ gracePeriodMsOfDays gracePeriodDays)
    (hdexp : d.expiresAt < now)
    (_hdgrace : now - d.lastValidated
        ≤ options.gracePeriodMs.getD d.gracePeriodMs) :
    isLicenseExpired st now = true
    ∧ (validateLicense st lic.key now machineId NetOutcome.unreachable
        gracePeriodDays).1
      = { isValid := false,
          message := some
            "License has expired. Online validation required for renewal." }
    ∧ LicenseManager.validateOffline d options now
      = { isValid := false, status := LicenseStatus.expired,
          message := "License has expired", wasOffline := true } := by
  have h1 : lic.expiresOn ≤ now := Nat.le_of_lt hexp
  refine ⟨?_, ?_, ?_⟩
  · simp [isLicenseExpired, hget, h1]
  · simp [validateLicense, offlineValidate, hget, h1]
  · simp [LicenseManager.validateOffline, hdexp]

/-- Witness for C3: a record expired one millisecond ago, validated
recently enough that the grace window has not elapsed. -/
theorem expired_record_never_trusted_offline_witness :
    isLicenseExpired
        { licenseKeyConfig := "K", licenseExpires := some 599,
          licenseLastValidated := some 500, licenseMachineId := some "M" }
        600 = true
    ∧ (validateLicense
        { licenseKeyConfig := "K", licenseExpires := some 599,
          licenseLastValidated := some 500, licenseMachineId := some "M" }
        "K" 600 "M" NetOutcome.unreachable 3).1
      = { isValid := false,
          message := some
            "License has expired. Online validation required for renewal." }
    ∧ LicenseManager.validateOffline
        { key := "K", lastValidated := 500, expiresAt := 599,
          status := LicenseStatus.active, gracePeriodMs := 604800000 } {}
        600
      = { isValid := false, status := LicenseStatus.expired,
          message := "License has expired", wasOffline := true } :=
  expired_record_never_trusted_offline _
    { key := "K", expiresOn := 599, lastValidated := 500,
      machineId := "M" }
    600 "M" 3
    { key := "K", lastValidated := 500, expiresAt := 599,
      status := LicenseStatus.active, gracePeriodMs := 604800000 } {}
    rfl (by decide) (by decide) (by decide) (by decide)

end CodeCheckout
